import Mathlib

/-!
Verification of the Crestron XSIG TCP server core
(src/crestron_xsig/server.py) against its natural-language
specification.

The embedding models Python integer arithmetic exactly where it matters:
Python `~x` is `-(x+1)`, `x >> k` is floor division by `2^k` (Int.ediv by a
positive divisor is floor division), `x % m` for positive `m` is the
nonnegative Euclidean remainder (Int.emod), and `|`, `&` on nonnegative
ints coincide with Nat.lor / Nat.land.  Wall-clock times (time.time(),
seconds as float in the source) are modelled as natural numbers counting
milliseconds, so the 0.1 s sync debounce becomes 100 and the 1.0 s
rate-limit window becomes 1000; strict comparisons are preserved by this
positive scaling.  struct.pack with format ">BB"/">BBBB" raises
struct.error when a field does not fit in one byte; that check is the
`packB` guard below.
-/

/-- Python exception values raised by the server module.  Constructors
correspond to the raise sites in server.py: ValueError from
validate_join and from the serial length check, ConnectionError raised
directly for an unavailable server or missing writer, HomeAssistantError
for a rate-limit rejection, struct.error from struct.pack, and `wrap e`
for the `raise ConnectionError(...) from err` re-raise that closes every
set_* method. -/
inductive PyErr where
  | valueError : PyErr
  | connectionError : PyErr
  | homeAssistantError : PyErr
  | structError : PyErr
  | wrap : PyErr → PyErr
deriving DecidableEq, Repr

deriving instance DecidableEq for Except

/-- Python bitwise complement on unbounded ints: `~x = -(x+1)`. -/
def pyNot (x : Int) : Int := -(x + 1)

/-- Python left shift `x << k` (defined for all ints as multiplication). -/
def pyShl (x : Int) (k : Nat) : Int := x * 2 ^ k

/-- Python arithmetic right shift `x >> k`, floor division by `2^k`.
Division on Int is Euclidean division, which for a positive divisor is
floor division, matching Python. -/
def pyShr (x : Int) (k : Nat) : Int := x / 2 ^ k

/-- Python `x & 2^k` for a single-bit mask, valid for negative `x` as
well (two's-complement semantics): it extracts bit `k`. -/
def pyAndPow2 (x : Int) (k : Nat) : Int := 2 ^ k * (pyShr x k % 2)

/-- Python `x & 1` (parity bit, two's-complement, any sign). -/
def pyAnd1 (x : Int) : Int := x % 2

/-- struct.pack field check for format "B": the value must fit in one
unsigned byte, otherwise struct.error is raised. -/
def packB (b : Nat) : Except PyErr Nat :=
  if b ≤ 255 then .ok b else .error .structError

/-- Value bits of byte 0 of a digital frame, from set_digital.send_command:
`~value << 5 & 0b00100000` with the Python bool coerced to 0 or 1. -/
def digValueBits (v : Bool) : Nat :=
  (pyAndPow2 (pyShl (pyNot (if v then 1 else 0)) 5) 5).toNat

/-- Digital frame encoder, from set_digital.send_command (server.py
lines 659-664): struct.pack(">BB", 0b10000000 | (~value << 5 & 0b00100000)
| (join - 1) >> 7, (join - 1) & 0b01111111). -/
def encode_digital (join : Nat) (value : Bool) : Except PyErr (Nat × Nat) := do
  let b0 ← packB (128 ||| digValueBits value ||| ((join - 1) >>> 7))
  let b1 ← packB ((join - 1) &&& 127)
  return (b0, b1)

/-- Digital join decoder from the read loop (server.py line 359):
`join = ((header[0] & 0b00011111) << 7 | header[1]) + 1`. -/
def decode_digital_join (b0 b1 : Nat) : Nat :=
  (((b0 &&& 31) <<< 7) ||| b1) + 1

/-- Digital value decoder from the read loop (server.py lines 360-371):
`value = ~header[0] >> 5 & 0b1` followed by `current_bool = value == 1`. -/
def decode_digital_value (b0 : Nat) : Bool :=
  pyAnd1 (pyShr (pyNot (b0 : Int)) 5) == 1

/-- Analog frame encoder, from set_analog.send_command (server.py lines
516-523): struct.pack(">BBBB", 0b11000000 | (value >> 10 & 0b00110000) |
(join - 1) >> 7, (join - 1) & 0b01111111, value >> 7 & 0b01111111,
value & 0b01111111). -/
def encode_analog (join value : Nat) : Except PyErr (Nat × Nat × Nat × Nat) := do
  let b0 ← packB (192 ||| ((value >>> 10) &&& 48) ||| ((join - 1) >>> 7))
  let b1 ← packB ((join - 1) &&& 127)
  let b2 ← packB ((value >>> 7) &&& 127)
  let b3 ← packB (value &&& 127)
  return (b0, b1, b2, b3)

/-- Analog join decoder from the read loop (server.py line 421):
`join = ((header[0] & 0b00000111) << 7 | header[1]) + 1`. -/
def decode_analog_join (b0 b1 : Nat) : Nat :=
  (((b0 &&& 7) <<< 7) ||| b1) + 1

/-- Analog value decoder from the read loop (server.py lines 422-424):
`value = (header[0] & 0b00110000) << 10 | header[2] << 7 | header[3]`. -/
def decode_analog_value (b0 b2 b3 : Nat) : Nat :=
  (((b0 &&& 48) <<< 10) ||| (b2 <<< 7)) ||| b3

/-- Serial frame header encoder, from set_serial.send_command (server.py
lines 708-710): struct.pack(">BB", 0b11001000 | ((join - 1) >> 7),
(join - 1) & 0b01111111).  set_serial performs no join validation, so
`join` can be any int; for join ≤ 0 the Python expression
`0b11001000 | ((join - 1) >> 7)` is negative (arithmetic shift of a
negative int, then two's-complement or keeps it negative), so
struct.pack raises struct.error. -/
def encode_serial_header (join : Int) : Except PyErr (Nat × Nat) := do
  if join ≤ 0 then
    .error .structError
  else do
    let j := (join - 1).toNat
    let b0 ← packB (200 ||| (j >>> 7))
    let b1 ← packB (j &&& 127)
    return (b0, b1)

/-- Serial join decoder from the read loop (server.py line 443):
`join = ((header[0] & 0b00000111) << 7 | header[1]) + 1`. -/
def decode_serial_join (b0 b1 : Nat) : Nat :=
  (((b0 &&& 7) <<< 7) ||| b1) + 1

/-- Callback notifications observable from the outside: system events
("connected"/"disconnected" delivered to the "system" channel), join
updates (join-id string plus the string value passed to callbacks), and
an invocation of the registered sync-all-joins callback. -/
inductive Ev where
  | system : String → Ev
  | joinEv : String → String → Ev
  | syncAll : Ev
deriving DecidableEq, Repr

/-- JoinState for a digital join (class JoinState, server.py lines 38-47:
value=False, last_update=0, update_count=0; the digital table stores
bools). -/
structure JoinB where
  value : Bool := false
  last_update : Nat := 0
  update_count : Nat := 0
deriving DecidableEq, Repr

/-- JoinState for an analog join.  The Python initializer sets
value=False, which compares equal to 0 and is returned as 0; it is
modelled as the Nat 0. -/
structure JoinA where
  value : Nat := 0
  last_update : Nat := 0
  update_count : Nat := 0
deriving DecidableEq, Repr

/-- JoinState for a serial join.  The Python initializer sets
value=False, which is distinct from every str (in particular from "");
it is modelled as `none`, with stored strings as `some`. -/
structure JoinS where
  value : Option String := none
  last_update : Nat := 0
  update_count : Nat := 0
deriving DecidableEq, Repr

/-- Outbound commands: the closures queued by set_digital, set_analog
and set_serial, capturing join and value.  Digital and analog joins are
validated before the closure is created, so they are Nat here; set_serial
performs no validation, so its join stays an Int. -/
inductive Cmd where
  | dig : Nat → Bool → Cmd
  | ana : Nat → Nat → Cmd
  | ser : Int → String → Cmd
deriving DecidableEq, Repr

/-- Data written to the TCP socket, one chunk per writer.write call.
Frame chunks carry the packed header bytes; the serial frame carries its
string payload (whose UTF-8 bytes followed by 0xFF go on the wire). -/
inductive OutChunk where
  | updateRequest : OutChunk
  | digFrame : Nat → Nat → OutChunk
  | anaFrame : Nat → Nat → Nat → Nat → OutChunk
  | serFrame : Nat → Nat → String → OutChunk
deriving DecidableEq, Repr

/-- The mutable state of a CrestronServer instance, restricted to the
fields the claims are about.  Tables are total functions with the
defaultdict default; `out` is the sequence of socket writes; `events`
the sequence of callback notifications, in order. -/
structure ServerState where
  availableFlag : Bool := false
  writerPresent : Bool := false
  writerClosing : Bool := false
  commandEvent : Bool := false
  initialSyncReceived : Bool := false
  syncEventSet : Bool := false
  lastSyncRequest : Nat := 0
  syncCbRegistered : Bool := false
  digital : Nat → JoinB := fun _ => {}
  analog : Nat → JoinA := fun _ => {}
  serial : Int → JoinS := fun _ => {}
  joinUpdateTimes : String → List Nat := fun _ => []
  queue : List Cmd := []
  out : List OutChunk := []
  events : List Ev := []

/-- The `available` property (server.py lines 94-103): the internal flag
and a writer that exists and is not closing. -/
def available (s : ServerState) : Bool :=
  s.availableFlag && s.writerPresent && !s.writerClosing

/-- Digital-frame branch of the read loop (server.py lines 353-412):
decode join and value, unconditionally update the JoinState and notify
the join callbacks with "1"/"0". -/
def handle_digital_frame (b0 b1 now : Nat) (s : ServerState) : ServerState :=
  let join := decode_digital_join b0 b1
  let current_bool := decode_digital_value b0
  let js := s.digital join
  { s with
    digital := Function.update s.digital join
      { value := current_bool, last_update := now, update_count := js.update_count + 1 },
    events := s.events ++
      [.joinEv ("d" ++ toString join) (if current_bool then "1" else "0")] }

/-- Analog-frame branch of the read loop (server.py lines 414-434):
decode join and value, update state and notify only if the value
changed. -/
def handle_analog_frame (b0 b1 b2 b3 now : Nat) (s : ServerState) : ServerState :=
  let join := decode_analog_join b0 b1
  let value := decode_analog_value b0 b2 b3
  let js := s.analog join
  if js.value ≠ value then
    { s with
      analog := Function.update s.analog join
        { value := value, last_update := now, update_count := js.update_count + 1 },
      events := s.events ++ [.joinEv ("a" ++ toString join) (toString value)] }
  else s

/-- Serial-frame branch of the read loop (server.py lines 436-454):
decode join and payload string, update state and notify only if the
value changed (the initial False differs from every str). -/
def handle_serial_frame (b0 b1 : Nat) (str : String) (now : Nat) (s : ServerState) :
    ServerState :=
  let join := decode_serial_join b0 b1
  let js := s.serial (join : Int)
  if js.value ≠ some str then
    { s with
      serial := Function.update s.serial (join : Int)
        { value := some str, last_update := now, update_count := js.update_count + 1 },
      events := s.events ++ [.joinEv ("s" ++ toString join) str] }
  else s

/-- Sync-byte branch of the read loop (server.py lines 324-349): 100 ms
debounce against the last sync request; on the first sync mark available,
release the command-queue gate, fire "connected" and re-send an update
request; then invoke the sync-all callback if one is registered. -/
def handle_sync_byte (now : Nat) (s : ServerState) : ServerState :=
  if now - s.lastSyncRequest > 100 then
    let s1 := { s with lastSyncRequest := now }
    let s2 :=
      if s1.initialSyncReceived = false then
        { s1 with
          initialSyncReceived := true,
          syncEventSet := true,
          availableFlag := true,
          commandEvent := true,
          events := s1.events ++ [.system "connected"],
          out := s1.out ++ [.updateRequest] }
      else s1
    if s2.syncCbRegistered then { s2 with events := s2.events ++ [.syncAll] } else s2
  else s

/-- Common disconnect actions of the EOF branch and the exception branch
of the read loop (server.py lines 455-467): clear the availability flag,
clear the command-queue gate, notify "disconnected". -/
def mark_disconnected (s : ServerState) : ServerState :=
  { s with
    availableFlag := false,
    commandEvent := false,
    events := s.events ++ [.system "disconnected"] }

/-- Model of `await reader.readuntil(b"\xff")` over the remaining byte
list: the payload before the first 0xFF and the rest after it, or none
if no 0xFF arrives before EOF (IncompleteReadError in Python). -/
def read_until_ff : List Nat → Option (List Nat × List Nat)
  | [] => none
  | b :: bs =>
    if b = 255 then some ([], bs)
    else
      match read_until_ff bs with
      | none => none
      | some (p, r) => some (b :: p, r)

/-- Model of `bytes.decode("utf-8")`: None means UnicodeDecodeError. -/
def utf8_decode (bs : List Nat) : Option String :=
  String.fromUTF8? (ByteArray.mk (Array.mk (bs.map (fun b => UInt8.ofNat b))))

/-- Result of one iteration of the read loop: either the loop ends (EOF
or exception, after the disconnect actions ran) or it continues on the
remaining input. -/
inductive StepRes where
  | stop : ServerState → StepRes
  | next : List Nat → List Nat → ServerState → StepRes

/-- One iteration of the `while connected` read loop of
handle_connection (server.py lines 319-467).  The byte stream is the
connection input; one wall-clock timestamp is consumed per iteration
(the loop body calls time.time() at most once).  An empty stream is the
EOF read; a stream too short to finish a frame makes the corresponding
read return empty bytes and the following index/unpack raise, which the
except branch turns into the same disconnect actions. -/
def loop_step (bytes ts : List Nat) (s : ServerState) : StepRes :=
  let now := ts.headD 0
  let tr := ts.tail
  match bytes with
  | [] => .stop (mark_disconnected s)
  | b :: rest =>
    if b = 251 then .next rest tr (handle_sync_byte now s)
    else
      match rest with
      | [] => .stop (mark_disconnected s)
      | b1 :: rest2 =>
        if b &&& 192 = 128 ∧ b1 &&& 128 = 0 then
          .next rest2 tr (handle_digital_frame b b1 now s)
        else if b &&& 200 = 192 ∧ b1 &&& 128 = 0 then
          match rest2 with
          | b2 :: b3 :: rest4 => .next rest4 tr (handle_analog_frame b b1 b2 b3 now s)
          | _ => .stop (mark_disconnected s)
        else if b &&& 248 = 200 ∧ b1 &&& 128 = 0 then
          match read_until_ff rest2 with
          | some (payload, restp) =>
            match utf8_decode payload with
            | some str => .next restp tr (handle_serial_frame b b1 str now s)
            | none => .stop (mark_disconnected s)
          | none => .stop (mark_disconnected s)
        else .next rest2 tr s

/-- The read loop, driven by fuel.  Every iteration that continues
consumes at least one input byte, so fuel `bytes.length + 1` always
reaches the EOF or exception exit; fuel 0 is never hit from
handle_connection. -/
def run_loop : Nat → List Nat → List Nat → ServerState → ServerState
  | 0, _, _, s => s
  | fuel + 1, bytes, ts, s =>
    match loop_step bytes ts s with
    | .stop s1 => s1
    | .next b1 t1 s1 => run_loop fuel b1 t1 s1

/-- Connection-start actions of handle_connection (server.py lines
297-316): adopt the writer, reset the sync state, clear all three join
tables, send the initial update request (0xFD). -/
def conn_start (s : ServerState) : ServerState :=
  { s with
    writerPresent := true,
    writerClosing := false,
    initialSyncReceived := false,
    syncEventSet := false,
    lastSyncRequest := 0,
    digital := fun _ => {},
    analog := fun _ => {},
    serial := fun _ => {},
    out := s.out ++ [.updateRequest] }

/-- The finally block of handle_connection (server.py lines 471-485):
close and drop the writer, clear availability and the command gate,
reset the sync state, and notify "disconnected" (again). -/
def conn_finally (s : ServerState) : ServerState :=
  { s with
    writerPresent := false,
    availableFlag := false,
    commandEvent := false,
    initialSyncReceived := false,
    syncEventSet := false,
    events := s.events ++ [.system "disconnected"] }

/-- One complete run of handle_connection on a connection whose inbound
byte stream is `bytes`, with per-iteration wall-clock times `ts`. -/
def handle_connection (bytes ts : List Nat) (s : ServerState) : ServerState :=
  conn_finally (run_loop (bytes.length + 1) bytes ts (conn_start s))

/-- validate_join (server.py lines 123-128) for join types "d" and "a":
ValueError unless 0 < join ≤ 65535 (MAX_DIGITAL_JOIN = MAX_ANALOG_JOIN
= 65535 in const.py).  For any other join type the check passes. -/
def validate_join (join : Int) : Except PyErr Unit :=
  if 0 < join ∧ join ≤ 65535 then .ok () else .error .valueError

/-- check_rate_limit (server.py lines 130-145): pop timestamps older
than the 1.0 s window off the front of the per-join-id list, then
reject (without recording) if 1000 or more remain, else record `now`
and admit.  Returns the admission decision together with the list as
left in self join_update_times. -/
def check_rate_limit (updates : List Nat) (now : Nat) : Bool × List Nat :=
  let pruned := updates.dropWhile (fun t => now - t > 1000)
  if pruned.length ≥ 1000 then (false, pruned)
  else (true, pruned ++ [now])

/-- Try block of get_digital (server.py lines 632-638): validate, return
False when unavailable, else the stored value. -/
def get_digital_body (s : ServerState) (join : Int) : Except PyErr Bool := do
  let _ ← validate_join join
  if available s = false then
    return false
  else
    return (s.digital join.toNat).value

/-- get_digital (server.py lines 630-641): any exception in the body
(notably the ValueError from validation) is caught and False returned. -/
def get_digital (s : ServerState) (join : Int) : Except PyErr Bool :=
  match get_digital_body s join with
  | .error _ => .ok false
  | .ok v => .ok v

/-- Try block of get_analog (server.py lines 489-495): validate, return
None when unavailable, else the stored value. -/
def get_analog_body (s : ServerState) (join : Int) : Except PyErr (Option Nat) := do
  let _ ← validate_join join
  if available s = false then
    return none
  else
    return some (s.analog join.toNat).value

/-- get_analog (server.py lines 487-498): any exception in the body is
caught and None returned. -/
def get_analog (s : ServerState) (join : Int) : Except PyErr (Option Nat) :=
  match get_analog_body s join with
  | .error _ => .ok none
  | .ok v => .ok v

/-- Try block of get_serial (server.py lines 679-684): no join
validation; return "" when unavailable, else `join_state.value or ""`
(the initial False and the empty string both yield ""). -/
def get_serial_body (s : ServerState) (join : Int) : Except PyErr String :=
  if available s = false then
    .ok ""
  else
    .ok ((s.serial join).value.getD "")

/-- get_serial (server.py lines 677-687): any exception is caught and
"" returned. -/
def get_serial (s : ServerState) (join : Int) : Except PyErr String :=
  match get_serial_body s join with
  | .error _ => .ok ""
  | .ok v => .ok v

/-- Model of `except Exception as err: raise ConnectionError(...) from
err` closing each set_* method: whatever exception the try block
produced is re-raised wrapped in a ConnectionError; state mutations
made before the raise persist. -/
def wrap_raise : ServerState × Option PyErr → ServerState × Option PyErr
  | (s1, some e) => (s1, some (.wrap e))
  | (s1, none) => (s1, none)

/-- Try block of set_digital (server.py lines 645-672): validate,
require availability and a writer, admit through the rate limiter
(which prunes the timestamp list even on rejection), then enqueue the
send closure. -/
def set_digital_body (s : ServerState) (join : Int) (value : Bool) (now : Nat) :
    ServerState × Option PyErr :=
  match validate_join join with
  | .error e => (s, some e)
  | .ok _ =>
    if available s = false then (s, some .connectionError)
    else if s.writerPresent = false then (s, some .connectionError)
    else
      let id := "d" ++ toString join
      let rl := check_rate_limit (s.joinUpdateTimes id) now
      let s1 := { s with joinUpdateTimes := Function.update s.joinUpdateTimes id rl.2 }
      if rl.1 = false then (s1, some .homeAssistantError)
      else ({ s1 with queue := s1.queue ++ [.dig join.toNat value] }, none)

/-- set_digital (server.py lines 643-675). -/
def set_digital (s : ServerState) (join : Int) (value : Bool) (now : Nat) :
    ServerState × Option PyErr :=
  wrap_raise (set_digital_body s join value now)

/-- Try block of set_analog (server.py lines 502-535): same shape as
set_digital with join id "a<n>" and the analog send closure. -/
def set_analog_body (s : ServerState) (join : Int) (value : Nat) (now : Nat) :
    ServerState × Option PyErr :=
  match validate_join join with
  | .error e => (s, some e)
  | .ok _ =>
    if available s = false then (s, some .connectionError)
    else if s.writerPresent = false then (s, some .connectionError)
    else
      let id := "a" ++ toString join
      let rl := check_rate_limit (s.joinUpdateTimes id) now
      let s1 := { s with joinUpdateTimes := Function.update s.joinUpdateTimes id rl.2 }
      if rl.1 = false then (s1, some .homeAssistantError)
      else ({ s1 with queue := s1.queue ++ [.ana join.toNat value] }, none)

/-- set_analog (server.py lines 500-538). -/
def set_analog (s : ServerState) (join : Int) (value : Nat) (now : Nat) :
    ServerState × Option PyErr :=
  wrap_raise (set_analog_body s join value now)

/-- Try block of set_serial (server.py lines 691-724): no join
validation; require availability and a writer, reject strings longer
than 252 characters (len counts code points, before any encoding),
admit through the rate limiter with join id "s<n>", then enqueue the
send closure. -/
def set_serial_body (s : ServerState) (join : Int) (str : String) (now : Nat) :
    ServerState × Option PyErr :=
  if available s = false then (s, some .connectionError)
  else if s.writerPresent = false then (s, some .connectionError)
  else if str.length > 252 then (s, some .valueError)
  else
    let id := "s" ++ toString join
    let rl := check_rate_limit (s.joinUpdateTimes id) now
    let s1 := { s with joinUpdateTimes := Function.update s.joinUpdateTimes id rl.2 }
    if rl.1 = false then (s1, some .homeAssistantError)
    else ({ s1 with queue := s1.queue ++ [.ser join str] }, none)

/-- set_serial (server.py lines 689-727). -/
def set_serial (s : ServerState) (join : Int) (str : String) (now : Nat) :
    ServerState × Option PyErr :=
  wrap_raise (set_serial_body s join str now)

/-- Execution of a queued send closure by the command-queue consumer.
From the three send_command bodies: pack the frame (struct.error
possible), write it to the socket, then update local JoinState for
analog (lines 528-532) and serial (lines 717-721) but deliberately not
for digital (line 669: wait for the echoed frame instead). -/
def exec_command (c : Cmd) (now : Nat) (s : ServerState) : ServerState × Option PyErr :=
  match c with
  | .dig join v =>
    match encode_digital join v with
    | .error e => (s, some e)
    | .ok (b0, b1) => ({ s with out := s.out ++ [.digFrame b0 b1] }, none)
  | .ana join v =>
    match encode_analog join v with
    | .error e => (s, some e)
    | .ok (b0, b1, b2, b3) =>
      let s1 : ServerState := { s with out := s.out ++ [OutChunk.anaFrame b0 b1 b2 b3] }
      let js := s1.analog join
      ({ s1 with
         analog := Function.update s1.analog join
           { value := v, last_update := now, update_count := js.update_count + 1 } },
        none)
  | .ser join str =>
    match encode_serial_header join with
    | .error e => (s, some e)
    | .ok (b0, b1) =>
      let s1 : ServerState := { s with out := s.out ++ [OutChunk.serFrame b0 b1 str] }
      let js := s1.serial join
      ({ s1 with
         serial := Function.update s1.serial join
           { value := some str, last_update := now, update_count := js.update_count + 1 } },
        none)

/-- Number of system events with the given message in an event list. -/
def count_system (msg : String) (evs : List Ev) : Nat :=
  evs.countP (fun e => e == Ev.system msg)

/-- Python len of a str counted in UTF-8 bytes rather than code points:
the byte length of the encoded payload that set_serial would put on the
wire. -/
def encoded_byte_len (str : String) : Nat :=
  (str.data.map Char.utf8Size).sum

/-- State of a freshly constructed server instance (the field defaults
mirror CrestronServer init). -/
def init_state : ServerState := {}

/-- State of a server with a synced, available connection and idle rate
limiter, as reached after the initial handshake. -/
def avail_state : ServerState :=
  { availableFlag := true
    writerPresent := true
    writerClosing := false
    commandEvent := true
    initialSyncReceived := true
    syncEventSet := true
    lastSyncRequest := 1000 }

/-- A connected state whose analog join 5 has exhausted its window:
1000 sends recorded at time index 5000. -/
def rate_limited_state : ServerState :=
  { avail_state with
    joinUpdateTimes := Function.update (fun _ => []) "a5" (List.replicate 1000 5000) }

/-- A string of 127 two-byte characters: 127 code points, 254 UTF-8
bytes. -/
def long_two_byte_string : String := String.mk (List.replicate 127 'é')

set_option maxRecDepth 4000

/-- Bit-append identity: shifting `a` left by `k` and or-ing in a value
below `2^k` is the same as `2^k * a + b`. -/
theorem shiftLeft_lor_eq_add (a b k : Nat) (hb : b < 2 ^ k) :
    (a <<< k) ||| b = 2 ^ k * a + b := by
  apply Nat.eq_of_testBit_eq
  intro i
  rw [Nat.testBit_lor, Nat.testBit_shiftLeft, Nat.testBit_mul_pow_two_add a hb i]
  by_cases h : i < k
  · have : ¬ (i ≥ k) := by omega
    simp [h, this]
  · have hk : i ≥ k := by omega
    have hbi : b.testBit i = false :=
      Nat.testBit_lt_two_pow (lt_of_lt_of_le hb (Nat.pow_le_pow_right (by omega) hk))
    simp [h, hk, hbi]

/-- Mask by 127 is mod 128 (Python `x & 0b01111111`). -/
theorem and127_eq_mod (x : Nat) : x &&& 127 = x % 128 := by
  have := Nat.and_pow_two_sub_one_eq_mod x 7
  norm_num at this
  exact this

/-- Byte-level mask facts, settled by exhaustive evaluation over one byte. -/
theorem byte_and31 : ∀ x < 256, x &&& 31 = x % 32 := by decide

/-- Mask by 7 on a byte is mod 8. -/
theorem byte_and7 : ∀ x < 256, x &&& 7 = x % 8 := by decide

/-- Mask by 0b00110000 on a byte extracts bits 4 and 5. -/
theorem byte_and48 : ∀ x < 256, x &&& 48 = 16 * (x / 16 % 4) := by decide

/-- Digital byte 0 assembly: the three or-ed fields are disjoint. -/
theorem digital_b0_lor : ∀ w < 2, ∀ h < 32, 128 ||| 32 * w ||| h = 128 + 32 * w + h := by
  decide

/-- Analog byte 0 assembly: the three or-ed fields are disjoint. -/
theorem analog_b0_lor : ∀ k < 4, ∀ jh < 8, 192 ||| 16 * k ||| jh = 192 + 16 * k + jh := by
  decide

/-- Value bits of the digital byte 0: the Python expression
`~value << 5 & 0b00100000` is 0 for True and 32 for False (the sense bit
is inverted on the wire). -/
theorem digValueBits_eq (v : Bool) : digValueBits v = if v then 0 else 32 := by
  cases v <;> decide

/-- Characterization of the digital value decoder: `~b0 >> 5 & 1 == 1`
holds exactly when bit 5 of byte 0 is clear. -/
theorem decode_digital_value_char (b0 : Nat) :
    decode_digital_value b0 = decide (b0 / 32 % 2 = 0) := by
  unfold decode_digital_value pyAnd1 pyShr pyNot
  have e : (2 : Int) ^ 5 = 32 := by norm_num
  rw [e]
  by_cases h : b0 / 32 % 2 = 0
  · simp only [h, decide_True, beq_iff_eq]
    omega
  · simp only [h, decide_False, beq_eq_false_iff_ne, ne_eq]
    omega

/-- Digital byte 0 assembly for value True (sense bit clear). -/
theorem digital_b0_lor_on : ∀ h < 32, 128 ||| 0 ||| h = 128 + h := by decide

/-- Digital byte 0 assembly for value False (sense bit set). -/
theorem digital_b0_lor_off : ∀ h < 32, 128 ||| 32 ||| h = 160 + h := by decide

/-- Round-trip core for the digital codec, parameterized over the two
possible sense-bit contributions. -/
theorem digital_roundtrip_core (m vb : Nat) (hm : m ≤ 4095) (hvb : vb = 0 ∨ vb = 32) :
    128 ||| vb ||| (m >>> 7) = 128 + vb + m / 128 ∧
    m &&& 127 = m % 128 ∧
    decode_digital_join (128 + vb + m / 128) (m % 128) = m + 1 ∧
    (128 + vb + m / 128) / 32 % 2 = (if vb = 0 then 0 else 1) := by
  have hsr : m >>> 7 = m / 128 := by
    rw [Nat.shiftRight_eq_div_pow]
  have hqlt : m / 128 < 32 := by omega
  have hb0lt : 128 + vb + m / 128 < 256 := by omega
  refine ⟨?_, and127_eq_mod m, ?_, ?_⟩
  · rw [hsr]
    rcases hvb with h | h <;> subst h
    · simpa using digital_b0_lor_on (m / 128) hqlt
    · simpa using digital_b0_lor_off (m / 128) hqlt
  · unfold decode_digital_join
    rw [byte_and31 _ hb0lt]
    have h31 : (128 + vb + m / 128) % 32 = m / 128 := by omega
    rw [h31, shiftLeft_lor_eq_add _ _ 7 (by omega)]
    omega
  · rcases hvb with h | h <;> subst h <;> simp <;> omega

/-- C1 counterexample input: encoding digital join 4097 value True
produces bytes (0xA0, 0x00), which the read loop decodes as join 1
value False: the 5-bit join-high mask of the decoder cannot represent
the encoded high bits, which collide with the sense bit. -/
theorem c1_counterexample :
    encode_digital 4097 true = .ok (160, 0) ∧
    decode_digital_join 160 0 = 1 ∧
    decode_digital_value 160 = false ∧
    ((1 : Nat) ≠ 4097 ∧ false ≠ true) := by
  refine ⟨by decide, by decide, by decide, by decide, by decide⟩

/-- C1 (amended): the digital frame round-trip holds exactly on joins
1..4096.  For every digital join n in [1,4096] and boolean v the two
bytes produced by the set_digital encoder are accepted by struct.pack
and the read-loop digital decoder recovers exactly (n, v). -/
theorem c1_digital_roundtrip (n : Nat) (v : Bool) (h1 : 1 ≤ n) (h2 : n ≤ 4096) :
    ∃ b0 b1, encode_digital n v = .ok (b0, b1) ∧
      decode_digital_join b0 b1 = n ∧ decode_digital_value b0 = v := by
  have hm : n - 1 ≤ 4095 := by omega
  cases v
  · have hvb : digValueBits false = 32 := by decide
    obtain ⟨hb0, hb1, hdj, hdv⟩ := digital_roundtrip_core (n - 1) 32 hm (Or.inr rfl)
    refine ⟨128 + 32 + (n - 1) / 128, (n - 1) % 128, ?_, ?_, ?_⟩
    · unfold encode_digital packB
      rw [hvb, hb0, hb1]
      rw [if_pos (by omega : 128 + 32 + (n - 1) / 128 ≤ 255),
        if_pos (by omega : (n - 1) % 128 ≤ 255)]
      rfl
    · rw [hdj]; omega
    · rw [decode_digital_value_char]
      simp at hdv
      simp [hdv]
  · have hvb : digValueBits true = 0 := by decide
    obtain ⟨hb0, hb1, hdj, hdv⟩ := digital_roundtrip_core (n - 1) 0 hm (Or.inl rfl)
    refine ⟨128 + 0 + (n - 1) / 128, (n - 1) % 128, ?_, ?_, ?_⟩
    · unfold encode_digital packB
      rw [hvb, hb0, hb1]
      rw [if_pos (by omega : 128 + 0 + (n - 1) / 128 ≤ 255),
        if_pos (by omega : (n - 1) % 128 ≤ 255)]
      rfl
    · rw [hdj]; omega
    · rw [decode_digital_value_char]
      simp at hdv
      simp [hdv]

/-- C2 counterexample input: encoding analog join 1025 value 0 produces
bytes (0xC8, 0, 0, 0), and the read-loop analog decoder recovers join 1,
not 1025: the decoder masks only three join-high bits while the encoder
needs four for this join (indeed byte 0 then matches the serial frame
pattern instead). -/
theorem c2_counterexample :
    encode_analog 1025 0 = .ok (200, 0, 0, 0) ∧
    decode_analog_join 200 0 = 1 ∧
    decode_analog_value 200 0 0 = 0 ∧
    (1 : Nat) ≠ 1025 := by
  refine ⟨by decide, by decide, by decide, by decide⟩

/-- C2 (amended): the analog frame round-trip holds exactly on joins
1..1024 and, for those joins, on the full value range [0,65535].  The
four bytes produced by the set_analog encoder are accepted by
struct.pack and the read-loop analog decoder recovers exactly (n, v);
in particular join 1 value 1000 decodes back to 1000 exactly. -/
theorem c2_analog_roundtrip (n v : Nat) (h1 : 1 ≤ n) (h2 : n ≤ 1024) (hv : v ≤ 65535) :
    ∃ b0 b1 b2 b3, encode_analog n v = .ok (b0, b1, b2, b3) ∧
      decode_analog_join b0 b1 = n ∧ decode_analog_value b0 b2 b3 = v := by
  have hm : n - 1 ≤ 1023 := by omega
  have hsrj : (n - 1) >>> 7 = (n - 1) / 128 := by rw [Nat.shiftRight_eq_div_pow]
  have hsr10 : v >>> 10 = v / 1024 := by rw [Nat.shiftRight_eq_div_pow]
  have hsr7 : v >>> 7 = v / 128 := by rw [Nat.shiftRight_eq_div_pow]
  have hjh : (n - 1) / 128 < 8 := by omega
  have hvx : v / 1024 < 256 := by omega
  have hvbits : (v >>> 10) &&& 48 = 16 * (v / 16384 % 4) := by
    rw [hsr10, byte_and48 _ hvx]
    have : v / 1024 / 16 = v / 16384 := by
      rw [Nat.div_div_eq_div_mul]
    rw [this]
  have hk : v / 16384 % 4 < 4 := by omega
  have hb0 : 192 ||| ((v >>> 10) &&& 48) ||| ((n - 1) >>> 7)
      = 192 + 16 * (v / 16384 % 4) + (n - 1) / 128 := by
    rw [hvbits, hsrj]
    exact analog_b0_lor _ hk _ hjh
  have hb0lt : 192 + 16 * (v / 16384 % 4) + (n - 1) / 128 < 256 := by omega
  refine ⟨192 + 16 * (v / 16384 % 4) + (n - 1) / 128, (n - 1) % 128,
    v / 128 % 128, v % 128, ?_, ?_, ?_⟩
  · unfold encode_analog packB
    rw [hb0, and127_eq_mod (n - 1), hsr7, and127_eq_mod (v / 128), and127_eq_mod v]
    rw [if_pos (by omega : 192 + 16 * (v / 16384 % 4) + (n - 1) / 128 ≤ 255),
      if_pos (by omega : (n - 1) % 128 ≤ 255),
      if_pos (by omega : v / 128 % 128 ≤ 255),
      if_pos (by omega : v % 128 ≤ 255)]
    rfl
  · unfold decode_analog_join
    rw [byte_and7 _ hb0lt]
    have h8 : (192 + 16 * (v / 16384 % 4) + (n - 1) / 128) % 8 = (n - 1) / 128 := by
      omega
    rw [h8, shiftLeft_lor_eq_add _ _ 7 (by omega)]
    omega
  · unfold decode_analog_value
    rw [byte_and48 _ hb0lt]
    have h16 : (192 + 16 * (v / 16384 % 4) + (n - 1) / 128) / 16 % 4 = v / 16384 % 4 := by
      omega
    rw [h16, Nat.lor_assoc, shiftLeft_lor_eq_add _ _ 7 (by omega)]
    have hshl : (16 * (v / 16384 % 4)) <<< 10 = (v / 16384 % 4) <<< 14 := by
      rw [Nat.shiftLeft_eq, Nat.shiftLeft_eq]
      ring
    rw [hshl, shiftLeft_lor_eq_add _ _ 14 (by omega)]
    omega

/-- read_until_ff splits its input at the first 0xFF. -/
theorem read_until_ff_eq :
    ∀ bs p r, read_until_ff bs = some (p, r) → bs = p ++ 255 :: r := by
  intro bs
  induction bs with
  | nil => intro p r h; simp [read_until_ff] at h
  | cons b bs ih =>
    intro p r h
    simp only [read_until_ff] at h
    by_cases hb : b = 255
    · rw [if_pos hb] at h
      simp only [Option.some.injEq, Prod.mk.injEq] at h
      obtain ⟨hp, hr⟩ := h
      subst hb
      subst hp
      subst hr
      rfl
    · rw [if_neg hb] at h
      cases hru : read_until_ff bs with
      | none => rw [hru] at h; cases h
      | some pr =>
        obtain ⟨p1, r1⟩ := pr
        rw [hru] at h
        simp only [Option.some.injEq, Prod.mk.injEq] at h
        obtain ⟨hp, hr⟩ := h
        subst hp
        subst hr
        rw [ih p1 r1 hru]
        rfl

/-- Appending a system event bumps exactly the matching counter. -/
theorem count_system_append_system (msg m : String) (evs : List Ev) :
    count_system msg (evs ++ [Ev.system m])
      = count_system msg evs + (if m = msg then 1 else 0) := by
  simp only [count_system, List.countP_append, List.countP_cons, List.countP_nil]
  by_cases h : m = msg
  · subst h; simp
  · have : (Ev.system m == Ev.system msg) = false := by
      simp [BEq.beq]
      intro hc
      exact absurd hc h
    simp [this, h]

/-- Appending a join notification changes no system-event counter. -/
theorem count_system_append_joinEv (msg a b : String) (evs : List Ev) :
    count_system msg (evs ++ [Ev.joinEv a b]) = count_system msg evs := by
  simp [count_system, List.countP_append, List.countP_cons]

/-- Appending a sync-all invocation changes no system-event counter. -/
theorem count_system_append_syncAll (msg : String) (evs : List Ev) :
    count_system msg (evs ++ [Ev.syncAll]) = count_system msg evs := by
  simp [count_system, List.countP_append, List.countP_cons]

/-- Fields and counters preserved by the digital-frame branch: it only
touches the digital table and appends one join notification. -/
theorem handle_digital_frame_preserves (b0 b1 now : Nat) (s : ServerState) :
    (handle_digital_frame b0 b1 now s).availableFlag = s.availableFlag ∧
    (handle_digital_frame b0 b1 now s).commandEvent = s.commandEvent ∧
    (handle_digital_frame b0 b1 now s).initialSyncReceived = s.initialSyncReceived ∧
    (handle_digital_frame b0 b1 now s).writerPresent = s.writerPresent ∧
    (handle_digital_frame b0 b1 now s).writerClosing = s.writerClosing ∧
    (handle_digital_frame b0 b1 now s).joinUpdateTimes = s.joinUpdateTimes ∧
    (handle_digital_frame b0 b1 now s).queue = s.queue ∧
    (handle_digital_frame b0 b1 now s).analog = s.analog ∧
    (handle_digital_frame b0 b1 now s).serial = s.serial ∧
    ∀ msg, count_system msg (handle_digital_frame b0 b1 now s).events
      = count_system msg s.events := by
  refine ⟨rfl, rfl, rfl, rfl, rfl, rfl, rfl, rfl, rfl, fun msg => ?_⟩
  simp only [handle_digital_frame]
  exact count_system_append_joinEv ..

/-- Fields and counters preserved by the analog-frame branch. -/
theorem handle_analog_frame_preserves (b0 b1 b2 b3 now : Nat) (s : ServerState) :
    (handle_analog_frame b0 b1 b2 b3 now s).availableFlag = s.availableFlag ∧
    (handle_analog_frame b0 b1 b2 b3 now s).commandEvent = s.commandEvent ∧
    (handle_analog_frame b0 b1 b2 b3 now s).initialSyncReceived = s.initialSyncReceived ∧
    (handle_analog_frame b0 b1 b2 b3 now s).writerPresent = s.writerPresent ∧
    (handle_analog_frame b0 b1 b2 b3 now s).writerClosing = s.writerClosing ∧
    (handle_analog_frame b0 b1 b2 b3 now s).joinUpdateTimes = s.joinUpdateTimes ∧
    (handle_analog_frame b0 b1 b2 b3 now s).queue = s.queue ∧
    (handle_analog_frame b0 b1 b2 b3 now s).digital = s.digital ∧
    (handle_analog_frame b0 b1 b2 b3 now s).serial = s.serial ∧
    ∀ msg, count_system msg (handle_analog_frame b0 b1 b2 b3 now s).events
      = count_system msg s.events := by
  by_cases hc : (s.analog (decode_analog_join b0 b1)).value = decode_analog_value b0 b2 b3
  · simp [handle_analog_frame, hc]
  · simp [handle_analog_frame, hc, count_system_append_joinEv]

/-- Fields and counters preserved by the serial-frame branch. -/
theorem handle_serial_frame_preserves (b0 b1 : Nat) (str : String) (now : Nat)
    (s : ServerState) :
    (handle_serial_frame b0 b1 str now s).availableFlag = s.availableFlag ∧
    (handle_serial_frame b0 b1 str now s).commandEvent = s.commandEvent ∧
    (handle_serial_frame b0 b1 str now s).initialSyncReceived = s.initialSyncReceived ∧
    (handle_serial_frame b0 b1 str now s).writerPresent = s.writerPresent ∧
    (handle_serial_frame b0 b1 str now s).writerClosing = s.writerClosing ∧
    (handle_serial_frame b0 b1 str now s).joinUpdateTimes = s.joinUpdateTimes ∧
    (handle_serial_frame b0 b1 str now s).queue = s.queue ∧
    (handle_serial_frame b0 b1 str now s).digital = s.digital ∧
    (handle_serial_frame b0 b1 str now s).analog = s.analog ∧
    ∀ msg, count_system msg (handle_serial_frame b0 b1 str now s).events
      = count_system msg s.events := by
  by_cases hc : (s.serial ((decode_serial_join b0 b1 : Nat) : Int)).value = some str
  · simp [handle_serial_frame, hc]
  · simp [handle_serial_frame, hc, count_system_append_joinEv]

/-- Counting system events distributes over list append. -/
theorem count_system_append_list (msg : String) (evs extra : List Ev) :
    count_system msg (evs ++ extra) = count_system msg evs + count_system msg extra := by
  simp [count_system, List.countP_append]

/-- The first-sync notifications contain no "disconnected" event. -/
theorem count_system_disc_pair :
    count_system "disconnected" [Ev.system "connected", Ev.syncAll] = 0 := by decide

/-- Fields preserved by the sync-byte branch, and its effect on the
"connected" counter: it never touches the tables, the queue, the rate
limiter or the writer, never fires "disconnected", and fires "connected"
only on the very first (debounced) sync of the connection. -/
theorem handle_sync_byte_preserves (now : Nat) (s : ServerState) :
    (handle_sync_byte now s).writerPresent = s.writerPresent ∧
    (handle_sync_byte now s).writerClosing = s.writerClosing ∧
    (handle_sync_byte now s).joinUpdateTimes = s.joinUpdateTimes ∧
    (handle_sync_byte now s).queue = s.queue ∧
    (handle_sync_byte now s).digital = s.digital ∧
    (handle_sync_byte now s).analog = s.analog ∧
    (handle_sync_byte now s).serial = s.serial ∧
    count_system "disconnected" (handle_sync_byte now s).events
      = count_system "disconnected" s.events ∧
    (s.initialSyncReceived = true →
      (handle_sync_byte now s).initialSyncReceived = true ∧
      (handle_sync_byte now s).availableFlag = s.availableFlag ∧
      count_system "connected" (handle_sync_byte now s).events
        = count_system "connected" s.events) := by
  by_cases hdb : now - s.lastSyncRequest > 100
  · by_cases hinit : s.initialSyncReceived = false
    · by_cases hcb : s.syncCbRegistered = true
      · simp [handle_sync_byte, hdb, hinit, hcb, count_system_append_list,
          count_system_disc_pair]
      · simp [handle_sync_byte, hdb, hinit, hcb,
          count_system_append_syncAll, count_system_append_system]
    · by_cases hcb : s.syncCbRegistered = true
      · simp [handle_sync_byte, hdb, hinit, hcb, count_system_append_syncAll]
      · simp [handle_sync_byte, hdb, hinit, hcb]
  · simp [handle_sync_byte, hdb]

/-- Fields preserved and events appended by the disconnect actions. -/
theorem mark_disconnected_preserves (s : ServerState) :
    (mark_disconnected s).availableFlag = false ∧
    (mark_disconnected s).commandEvent = false ∧
    (mark_disconnected s).initialSyncReceived = s.initialSyncReceived ∧
    (mark_disconnected s).writerPresent = s.writerPresent ∧
    (mark_disconnected s).writerClosing = s.writerClosing ∧
    (mark_disconnected s).joinUpdateTimes = s.joinUpdateTimes ∧
    (mark_disconnected s).queue = s.queue ∧
    (mark_disconnected s).digital = s.digital ∧
    (mark_disconnected s).analog = s.analog ∧
    (mark_disconnected s).serial = s.serial ∧
    count_system "disconnected" (mark_disconnected s).events
      = count_system "disconnected" s.events + 1 ∧
    count_system "connected" (mark_disconnected s).events
      = count_system "connected" s.events := by
  refine ⟨rfl, rfl, rfl, rfl, rfl, rfl, rfl, rfl, rfl, rfl, ?_, ?_⟩
  · rw [show (mark_disconnected s).events = s.events ++ [Ev.system "disconnected"] from rfl]
    rw [count_system_append_system]
    simp
  · rw [show (mark_disconnected s).events = s.events ++ [Ev.system "disconnected"] from rfl]
    rw [count_system_append_system]
    simp

/-- Classification of one read-loop iteration: either it stops after the
disconnect actions, or it continues on a strictly shorter suffix of the
input with the state transformed by exactly one of the five branch
handlers (sync byte, digital, analog, serial, or a skipped unrecognized
header). -/
theorem loop_step_spec (bytes ts : List Nat) (s : ServerState) :
    loop_step bytes ts s = .stop (mark_disconnected s) ∨
    ∃ b t s1, loop_step bytes ts s = .next b t s1 ∧ b.length < bytes.length ∧
      (∀ x ∈ b, x ∈ bytes) ∧
      (s1 = s ∨
       ((251 : Nat) ∈ bytes ∧ ∃ now, s1 = handle_sync_byte now s) ∨
       (∃ b0 b1 now, s1 = handle_digital_frame b0 b1 now s) ∨
       (∃ b0 b1 b2 b3 now, s1 = handle_analog_frame b0 b1 b2 b3 now s) ∨
       (∃ b0 b1 str now, s1 = handle_serial_frame b0 b1 str now s)) := by
  cases bytes with
  | nil => left; rfl
  | cons b rest =>
    by_cases hfb : b = 251
    · right
      refine ⟨rest, ts.tail, handle_sync_byte (ts.headD 0) s, ?_, by simp, ?_, ?_⟩
      · simp [loop_step, hfb]
      · intro x hx
        exact List.mem_cons_of_mem _ hx
      · right; left
        exact ⟨by simp [hfb], ts.headD 0, rfl⟩
    · cases rest with
      | nil =>
        left
        simp [loop_step, hfb]
      | cons b1 rest2 =>
        by_cases hd : b &&& 192 = 128 ∧ b1 &&& 128 = 0
        · right
          refine ⟨rest2, ts.tail, handle_digital_frame b b1 (ts.headD 0) s, ?_, ?_, ?_, ?_⟩
          · simp [loop_step, hfb, hd]
          · simp
            omega
          · intro x hx
            exact List.mem_cons_of_mem _ (List.mem_cons_of_mem _ hx)
          · right; right; left
            exact ⟨b, b1, ts.headD 0, rfl⟩
        · by_cases ha : b &&& 200 = 192 ∧ b1 &&& 128 = 0
          · have hd1 : ¬(b &&& 192 = 128) := fun h => hd ⟨h, ha.2⟩
            cases rest2 with
            | nil =>
              left
              simp [loop_step, hfb, hd1, ha]
            | cons b2 rest3 =>
              cases rest3 with
              | nil =>
                left
                simp [loop_step, hfb, hd1, ha]
              | cons b3 rest4 =>
                right
                refine ⟨rest4, ts.tail,
                  handle_analog_frame b b1 b2 b3 (ts.headD 0) s, ?_, ?_, ?_, ?_⟩
                · simp [loop_step, hfb, hd1, ha]
                · simp
                  omega
                · intro x hx
                  exact List.mem_cons_of_mem _ (List.mem_cons_of_mem _
                    (List.mem_cons_of_mem _ (List.mem_cons_of_mem _ hx)))
                · right; right; right; left
                  exact ⟨b, b1, b2, b3, ts.headD 0, rfl⟩
          · by_cases hsr : b &&& 248 = 200 ∧ b1 &&& 128 = 0
            · have hd1 : ¬(b &&& 192 = 128) := fun h => hd ⟨h, hsr.2⟩
              have ha1 : ¬(b &&& 200 = 192) := fun h => ha ⟨h, hsr.2⟩
              cases hru : read_until_ff rest2 with
              | none =>
                left
                simp [loop_step, hfb, hd1, ha1, hsr, hru]
              | some pr =>
                obtain ⟨payload, restp⟩ := pr
                cases hud : utf8_decode payload with
                | none =>
                  left
                  simp [loop_step, hfb, hd1, ha1, hsr, hru, hud]
                | some str =>
                  right
                  have hsplit := read_until_ff_eq rest2 payload restp hru
                  refine ⟨restp, ts.tail,
                    handle_serial_frame b b1 str (ts.headD 0) s, ?_, ?_, ?_, ?_⟩
                  · simp [loop_step, hfb, hd1, ha1, hsr, hru, hud]
                  · rw [hsplit]
                    simp
                    omega
                  · intro x hx
                    rw [hsplit]
                    refine List.mem_cons_of_mem _ (List.mem_cons_of_mem _ ?_)
                    rw [List.mem_append]
                    right
                    exact List.mem_cons_of_mem _ hx
                  · right; right; right; right
                    exact ⟨b, b1, str, ts.headD 0, rfl⟩
            · right
              refine ⟨rest2, ts.tail, s, ?_, ?_, ?_, Or.inl rfl⟩
              · simp [loop_step, hfb, hd, ha, hsr]
              · simp
                omega
              · intro x hx
                exact List.mem_cons_of_mem _ (List.mem_cons_of_mem _ hx)

/-- The read loop never touches the rate limiter: join_update_times is
written only by the outbound setters, never by inbound frame
processing. -/
theorem run_loop_joinUpdateTimes (fuel : Nat) :
    ∀ bytes ts s, (run_loop fuel bytes ts s).joinUpdateTimes = s.joinUpdateTimes := by
  induction fuel with
  | zero => intro bytes ts s; rfl
  | succ n ih =>
    intro bytes ts s
    rcases loop_step_spec bytes ts s with h | ⟨b, t, s1, h, hlen, hmem, hcase⟩
    · simp only [run_loop, h]
      rfl
    · simp only [run_loop, h]
      rw [ih b t s1]
      rcases hcase with rfl | ⟨_, now, rfl⟩ | ⟨b0, b1, now, rfl⟩ |
        ⟨b0, b1, b2, b3, now, rfl⟩ | ⟨b0, b1, str, now, rfl⟩
      · rfl
      · exact (handle_sync_byte_preserves now s).2.2.1
      · exact (handle_digital_frame_preserves b0 b1 now s).2.2.2.2.2.1
      · exact (handle_analog_frame_preserves b0 b1 b2 b3 now s).2.2.2.2.2.1
      · exact (handle_serial_frame_preserves b0 b1 str now s).2.2.2.2.2.1

/-- While no sync byte arrives, the availability flag can never become
true: only the 0xFB branch sets it. -/
theorem run_loop_no_sync_available (fuel : Nat) :
    ∀ bytes ts s, (251 : Nat) ∉ bytes → s.availableFlag = false →
      (run_loop fuel bytes ts s).availableFlag = false := by
  induction fuel with
  | zero => intro bytes ts s _ hs; exact hs
  | succ n ih =>
    intro bytes ts s h251 hs
    rcases loop_step_spec bytes ts s with h | ⟨b, t, s1, h, hlen, hmem, hcase⟩
    · simp only [run_loop, h]
      rfl
    · simp only [run_loop, h]
      refine ih b t s1 (fun hx => h251 (hmem 251 hx)) ?_
      rcases hcase with rfl | ⟨hsync, now, rfl⟩ | ⟨b0, b1, now, rfl⟩ |
        ⟨b0, b1, b2, b3, now, rfl⟩ | ⟨b0, b1, str, now, rfl⟩
      · exact hs
      · exact absurd hsync h251
      · rw [(handle_digital_frame_preserves b0 b1 now s).1]; exact hs
      · rw [(handle_analog_frame_preserves b0 b1 b2 b3 now s).1]; exact hs
      · rw [(handle_serial_frame_preserves b0 b1 str now s).1]; exact hs

/-- Once the initial sync has been consumed, the rest of the read loop
keeps initial_sync_received set and never fires another "connected"
event. -/
theorem run_loop_after_sync (fuel : Nat) :
    ∀ bytes ts s, s.initialSyncReceived = true →
      (run_loop fuel bytes ts s).initialSyncReceived = true ∧
      count_system "connected" (run_loop fuel bytes ts s).events
        = count_system "connected" s.events := by
  induction fuel with
  | zero => intro bytes ts s hs; exact ⟨hs, rfl⟩
  | succ n ih =>
    intro bytes ts s hs
    rcases loop_step_spec bytes ts s with h | ⟨b, t, s1, h, hlen, hmem, hcase⟩
    · simp only [run_loop, h]
      refine ⟨hs, ?_⟩
      exact (mark_disconnected_preserves s).2.2.2.2.2.2.2.2.2.2.2
    · simp only [run_loop, h]
      rcases hcase with rfl | ⟨hsync, now, rfl⟩ | ⟨b0, b1, now, rfl⟩ |
        ⟨b0, b1, b2, b3, now, rfl⟩ | ⟨b0, b1, str, now, rfl⟩
      · exact ih _ _ _ hs
      · obtain ⟨hi, _, hc⟩ := (handle_sync_byte_preserves now s).2.2.2.2.2.2.2.2 hs
        obtain ⟨hi2, hc2⟩ := ih b t _ hi
        exact ⟨hi2, by rw [hc2, hc]⟩
      · obtain ⟨hi2, hc2⟩ := ih b t _
          (((handle_digital_frame_preserves b0 b1 now s).2.2.1).trans hs)
        exact ⟨hi2, by
          rw [hc2, (handle_digital_frame_preserves b0 b1 now s).2.2.2.2.2.2.2.2.2]⟩
      · obtain ⟨hi2, hc2⟩ := ih b t _
          (((handle_analog_frame_preserves b0 b1 b2 b3 now s).2.2.1).trans hs)
        exact ⟨hi2, by
          rw [hc2, (handle_analog_frame_preserves b0 b1 b2 b3 now s).2.2.2.2.2.2.2.2.2]⟩
      · obtain ⟨hi2, hc2⟩ := ih b t _
          (((handle_serial_frame_preserves b0 b1 str now s).2.2.1).trans hs)
        exact ⟨hi2, by
          rw [hc2, (handle_serial_frame_preserves b0 b1 str now s).2.2.2.2.2.2.2.2.2]⟩

/-- With enough fuel (one more than the remaining input, which every
continuing iteration shrinks), the read loop always terminates through
the EOF or exception exit, firing "disconnected" exactly once inside
the loop. -/
theorem run_loop_disc_count (fuel : Nat) :
    ∀ bytes ts s, bytes.length < fuel →
      count_system "disconnected" (run_loop fuel bytes ts s).events
        = count_system "disconnected" s.events + 1 := by
  induction fuel with
  | zero => intro bytes ts s h; omega
  | succ n ih =>
    intro bytes ts s hfuel
    rcases loop_step_spec bytes ts s with h | ⟨b, t, s1, h, hlen, hmem, hcase⟩
    · simp only [run_loop, h]
      exact (mark_disconnected_preserves s).2.2.2.2.2.2.2.2.2.2.1
    · simp only [run_loop, h]
      have hrec := ih b t s1 (by omega)
      rcases hcase with rfl | ⟨hsync, now, rfl⟩ | ⟨b0, b1, now, rfl⟩ |
        ⟨b0, b1, b2, b3, now, rfl⟩ | ⟨b0, b1, str, now, rfl⟩
      · exact hrec
      · rw [hrec, (handle_sync_byte_preserves now s).2.2.2.2.2.2.2.1]
      · rw [hrec, (handle_digital_frame_preserves b0 b1 now s).2.2.2.2.2.2.2.2.2]
      · rw [hrec, (handle_analog_frame_preserves b0 b1 b2 b3 now s).2.2.2.2.2.2.2.2.2]
      · rw [hrec, (handle_serial_frame_preserves b0 b1 str now s).2.2.2.2.2.2.2.2.2]

/-- C3 counterexample: a connection that delivers one digital frame
(join 1, value True) and then EOF.  The run fires "disconnected" twice
(once in the EOF branch, once in the handler cleanup), not exactly once,
and the digital table still holds the received value afterwards: the
tables are not cleared on disconnect. -/
theorem c3_counterexample :
    count_system "disconnected" (handle_connection [128, 0] [5] init_state).events = 2 ∧
    ((handle_connection [128, 0] [5] init_state).digital 1).value = true := by
  constructor
  · decide
  · decide

/-- C3 (amended): when the read loop sees EOF (or any read error), the
availability flag and property become false and the "disconnected"
system event is delivered exactly twice per connection: once by the
EOF/exception branch and once more by the handler cleanup.  The three
JoinState tables are not cleared on disconnect: neither the disconnect
branch nor the cleanup touches them (the concrete run above retains the
received digital value); they are cleared when the next connection is
accepted (and on stop()). -/
theorem c3_disconnect_semantics :
    (∀ bytes ts s, (handle_connection bytes ts s).availableFlag = false ∧
       available (handle_connection bytes ts s) = false) ∧
    (∀ bytes ts s, count_system "disconnected" (handle_connection bytes ts s).events
        = count_system "disconnected" s.events + 2) ∧
    (∀ s, (mark_disconnected s).digital = s.digital ∧
       (mark_disconnected s).analog = s.analog ∧
       (mark_disconnected s).serial = s.serial ∧
       (conn_finally s).digital = s.digital ∧
       (conn_finally s).analog = s.analog ∧
       (conn_finally s).serial = s.serial) ∧
    ((handle_connection [128, 0] [5] init_state).digital 1).value = true ∧
    (∀ s (j : Nat) (ji : Int), (conn_start s).digital j = {} ∧
       (conn_start s).analog j = {} ∧ (conn_start s).serial ji = {}) := by
  refine ⟨?_, ?_, ?_, by decide, ?_⟩
  · intro bytes ts s
    exact ⟨rfl, rfl⟩
  · intro bytes ts s
    unfold handle_connection
    rw [show ∀ x : ServerState, (conn_finally x).events
        = x.events ++ [Ev.system "disconnected"] from fun x => rfl]
    rw [count_system_append_system]
    rw [run_loop_disc_count (bytes.length + 1) bytes ts (conn_start s) (by omega)]
    rw [show (conn_start s).events = s.events from rfl]
    simp
  · intro s
    exact ⟨rfl, rfl, rfl, rfl, rfl, rfl⟩
  · intro s j ji
    exact ⟨rfl, rfl, rfl⟩

/-- C4: handshake semantics.  (1) While no 0xFB byte has arrived on the
connection, the available property stays false whatever frames are
processed.  (2) On the first 0xFB (initial sync still pending, first
debounce passes since the last-sync stamp is 0 and wall-clock time
exceeds the 100 ms debounce), the availability flag becomes true, the
command-queue gate event is set, and exactly one additional "connected"
system event fires; the writer fields are untouched, so the available
property becomes true on a live writer.  (3) A 0xFB arriving within
100 ms of the previous one is pure noise: the state is unchanged, so no
event of any kind fires.  (4) Once the initial sync has been received,
no later 0xFB on the same connection ever fires a second "connected"
event.  (5) Concretely, a connection receiving two 0xFB bytes 50 ms
apart fires exactly one "connected" event and ends available with the
gate released. -/
theorem c4_handshake :
    (∀ fuel bytes ts s, (251 : Nat) ∉ bytes → s.availableFlag = false →
       available (run_loop fuel bytes ts s) = false) ∧
    (∀ now s, s.initialSyncReceived = false → s.lastSyncRequest = 0 → now > 100 →
       (handle_sync_byte now s).availableFlag = true ∧
       (handle_sync_byte now s).commandEvent = true ∧
       (handle_sync_byte now s).writerPresent = s.writerPresent ∧
       (handle_sync_byte now s).writerClosing = s.writerClosing ∧
       count_system "connected" (handle_sync_byte now s).events
         = count_system "connected" s.events + 1) ∧
    (∀ now s, now - s.lastSyncRequest ≤ 100 → handle_sync_byte now s = s) ∧
    (∀ fuel bytes ts s, s.initialSyncReceived = true →
       count_system "connected" (run_loop fuel bytes ts s).events
         = count_system "connected" s.events) ∧
    (count_system "connected"
       (run_loop 2 [251, 251] [1000, 1050] (conn_start init_state)).events = 1 ∧
     (run_loop 2 [251, 251] [1000, 1050] (conn_start init_state)).availableFlag = true ∧
     (run_loop 2 [251, 251] [1000, 1050] (conn_start init_state)).commandEvent = true) := by
  refine ⟨?_, ?_, ?_, ?_, by decide, by decide, by decide⟩
  · intro fuel bytes ts s h251 hs
    unfold available
    rw [run_loop_no_sync_available fuel bytes ts s h251 hs]
    rfl
  · intro now s hinit hlast hnow
    have hdb : now - s.lastSyncRequest > 100 := by omega
    by_cases hcb : s.syncCbRegistered = true
    · simp [handle_sync_byte, hdb, hinit, hcb, count_system_append_list,
        count_system_append_system]
      decide
    · simp [handle_sync_byte, hdb, hinit, hcb, count_system_append_system]
  · intro now s hdb
    unfold handle_sync_byte
    rw [if_neg (by omega)]
  · intro fuel bytes ts s hs
    exact (run_loop_after_sync fuel bytes ts s hs).2

/-- C4 witness: the handshake theorem applied at concrete inputs, one
per hypothesized part. -/
theorem c4_handshake_witness :
    available (run_loop 1 [128, 0] [7] init_state) = false ∧
    (handle_sync_byte 500 (conn_start init_state)).availableFlag = true ∧
    handle_sync_byte 1050 (handle_sync_byte 1000 (conn_start init_state))
      = handle_sync_byte 1000 (conn_start init_state) ∧
    count_system "connected"
        (run_loop 1 [251] [2000] (handle_sync_byte 1000 (conn_start init_state))).events
      = count_system "connected" (handle_sync_byte 1000 (conn_start init_state)).events := by
  refine ⟨c4_handshake.1 1 [128, 0] [7] init_state (by decide) rfl,
    (c4_handshake.2.1 500 (conn_start init_state) rfl rfl (by omega)).1,
    c4_handshake.2.2.1 1050 (handle_sync_byte 1000 (conn_start init_state)) (by decide),
    c4_handshake.2.2.2.1 1 [251] [2000] (handle_sync_byte 1000 (conn_start init_state))
      (by decide)⟩

/-- C5 counterexample: on an unavailable connection, get_analog for the
valid join 1 returns None (the unavailable sentinel), not the analog
zero value 0. -/
theorem c5_counterexample :
    available init_state = false ∧
    get_analog init_state 1 = .ok none ∧
    get_analog init_state 1 ≠ .ok (some 0) := by
  refine ⟨by decide, by decide, by decide⟩

/-- C5 (amended): for every valid join number, when the connection is
unavailable get_digital returns False and get_serial returns the empty
string, but get_analog returns None, not 0; None is the unavailable
sentinel, distinct from the analog zero value. -/
theorem c5_degrade_defaults (s : ServerState) (j : Int) (hav : available s = false)
    (h1 : 0 < j) (h2 : j ≤ 65535) :
    get_digital s j = .ok false ∧ get_analog s j = .ok none ∧
    get_serial s j = .ok "" := by
  have hv : validate_join j = .ok () := by
    unfold validate_join
    rw [if_pos ⟨h1, h2⟩]
  refine ⟨?_, ?_, ?_⟩
  · unfold get_digital get_digital_body
    rw [hv]
    simp [hav]
  · unfold get_analog get_analog_body
    rw [hv]
    simp [hav]
  · unfold get_serial get_serial_body
    simp [hav]

/-- C5 witness: the amended theorem applied to a fresh instance at
join 1. -/
theorem c5_degrade_defaults_witness :
    get_digital init_state 1 = .ok false ∧ get_analog init_state 1 = .ok none ∧
    get_serial init_state 1 = .ok "" :=
  c5_degrade_defaults init_state 1 (by decide) (by decide) (by decide)

/-- C6: write-back policy of the queued send closures.  Executing the
digital closure never touches any JoinState table, whatever the
outcome: digital state is updated only when the peer echoes the frame
back through the read loop.  Executing the analog and serial closures,
whenever the frame packs and is written (no struct.error), updates the
corresponding table entry with the sent value, the send time, and a
bumped update counter, leaving the other tables unchanged. -/
theorem c6_write_back_policy :
    (∀ join v now s,
       (exec_command (.dig join v) now s).1.digital = s.digital ∧
       (exec_command (.dig join v) now s).1.analog = s.analog ∧
       (exec_command (.dig join v) now s).1.serial = s.serial) ∧
    (∀ join v now s, (exec_command (.ana join v) now s).2 = none →
       (exec_command (.ana join v) now s).1.analog
         = Function.update s.analog join
             { value := v, last_update := now,
               update_count := (s.analog join).update_count + 1 } ∧
       (exec_command (.ana join v) now s).1.digital = s.digital ∧
       (exec_command (.ana join v) now s).1.serial = s.serial) ∧
    (∀ join str now s, (exec_command (.ser join str) now s).2 = none →
       (exec_command (.ser join str) now s).1.serial
         = Function.update s.serial join
             { value := some str, last_update := now,
               update_count := (s.serial join).update_count + 1 } ∧
       (exec_command (.ser join str) now s).1.digital = s.digital ∧
       (exec_command (.ser join str) now s).1.analog = s.analog) := by
  refine ⟨?_, ?_, ?_⟩
  · intro join v now s
    cases h : encode_digital join v with
    | error e => simp [exec_command, h]
    | ok bb =>
      obtain ⟨b0, b1⟩ := bb
      simp [exec_command, h]
  · intro join v now s hok
    cases h : encode_analog join v with
    | error e => rw [exec_command, h] at hok; cases hok
    | ok bb =>
      obtain ⟨b0, b1, b2, b3⟩ := bb
      simp [exec_command, h]
  · intro join str now s hok
    cases h : encode_serial_header join with
    | error e => rw [exec_command, h] at hok; cases hok
    | ok bb =>
      obtain ⟨b0, b1⟩ := bb
      simp [exec_command, h]

/-- C6 witness: executing the closures of set_digital(1, True),
set_analog(1, 5) and set_serial(1, "x") at send time 7 from the
connected state. -/
theorem c6_write_back_policy_witness :
    (exec_command (.dig 1 true) 7 avail_state).1.digital = avail_state.digital ∧
    (exec_command (.ana 1 5) 7 avail_state).1.analog
      = Function.update avail_state.analog 1
          { value := 5, last_update := 7,
            update_count := (avail_state.analog 1).update_count + 1 } ∧
    (exec_command (.ser 1 "x") 7 avail_state).1.serial
      = Function.update avail_state.serial 1
          { value := some "x", last_update := 7,
            update_count := (avail_state.serial 1).update_count + 1 } := by
  refine ⟨(c6_write_back_policy.1 1 true 7 avail_state).1,
    ((c6_write_back_policy.2.1 1 5 7 avail_state) (by decide)).1,
    ((c6_write_back_policy.2.2 1 "x" 7 avail_state) (by decide)).1⟩

/-- If 1000 timestamps survive the window pruning, the check rejects and
leaves the list exactly as pruned: no timestamp is recorded. -/
theorem check_rate_limit_reject (l : List Nat) (now : Nat) (hlen : 1000 ≤ l.length)
    (hwin : ∀ x ∈ l, now - x ≤ 1000) : check_rate_limit l now = (false, l) := by
  have hdw : l.dropWhile (fun t => now - t > 1000) = l := by
    cases l with
    | nil => rfl
    | cons a as =>
      rw [List.dropWhile_cons]
      have ha : ¬(now - a > 1000) := by
        have := hwin a (by simp)
        omega
      simp [ha]
  unfold check_rate_limit
  rw [hdw, if_pos hlen]

/-- Once every recorded timestamp has aged past the window, the check
prunes them all and admits, recording only the new send time. -/
theorem check_rate_limit_admit_aged (l : List Nat) (now : Nat)
    (hwin : ∀ x ∈ l, now - x > 1000) : check_rate_limit l now = (true, [now]) := by
  have hdw : l.dropWhile (fun t => now - t > 1000) = [] := by
    induction l with
    | nil => rfl
    | cons a as ih =>
      rw [List.dropWhile_cons]
      have ha : now - a > 1000 := hwin a (by simp)
      simp only [ha, decide_True, if_true]
      exact ih fun x hx => hwin x (by simp [hx])
  unfold check_rate_limit
  rw [hdw, if_neg (by simp)]
  rfl

/-- C7: sliding-window rate limiting.  (1) With 1000 timestamps still
inside the trailing 1.0 s window, the check rejects and records
nothing.  (2) Once all recorded timestamps age past the window they are
expired and the next send is admitted.  (3) In that rejected situation
each of set_analog, set_digital and set_serial raises the rate-limit
rejection (HomeAssistantError, surfaced wrapped in ConnectionError),
leaves the per-join timestamp list unchanged, and enqueues nothing.
(4) After the window elapses, the same set succeeds.  (5) The read loop
never touches the rate-limiter state: the limiter applies only to
outbound sets, never to inbound frame processing. -/
theorem c7_rate_limit :
    (∀ l now, 1000 ≤ l.length → (∀ x ∈ l, now - x ≤ 1000) →
       check_rate_limit l now = (false, l)) ∧
    (∀ l now, (∀ x ∈ l, now - x > 1000) →
       check_rate_limit l now = (true, [now])) ∧
    (∀ s (j : Int) v now, available s = true → s.writerPresent = true →
       0 < j → j ≤ 65535 →
       1000 ≤ (s.joinUpdateTimes ("a" ++ toString j)).length →
       (∀ x ∈ s.joinUpdateTimes ("a" ++ toString j), now - x ≤ 1000) →
       (set_analog s j v now).2 = some (.wrap .homeAssistantError) ∧
       (set_analog s j v now).1.joinUpdateTimes ("a" ++ toString j)
         = s.joinUpdateTimes ("a" ++ toString j) ∧
       (set_analog s j v now).1.queue = s.queue) ∧
    (∀ s (j : Int) v now, available s = true → s.writerPresent = true →
       0 < j → j ≤ 65535 →
       1000 ≤ (s.joinUpdateTimes ("d" ++ toString j)).length →
       (∀ x ∈ s.joinUpdateTimes ("d" ++ toString j), now - x ≤ 1000) →
       (set_digital s j v now).2 = some (.wrap .homeAssistantError) ∧
       (set_digital s j v now).1.joinUpdateTimes ("d" ++ toString j)
         = s.joinUpdateTimes ("d" ++ toString j) ∧
       (set_digital s j v now).1.queue = s.queue) ∧
    (∀ s (j : Int) str now, available s = true → s.writerPresent = true →
       str.length ≤ 252 →
       1000 ≤ (s.joinUpdateTimes ("s" ++ toString j)).length →
       (∀ x ∈ s.joinUpdateTimes ("s" ++ toString j), now - x ≤ 1000) →
       (set_serial s j str now).2 = some (.wrap .homeAssistantError) ∧
       (set_serial s j str now).1.joinUpdateTimes ("s" ++ toString j)
         = s.joinUpdateTimes ("s" ++ toString j) ∧
       (set_serial s j str now).1.queue = s.queue) ∧
    (∀ s (j : Int) v now, available s = true → s.writerPresent = true →
       0 < j → j ≤ 65535 →
       (∀ x ∈ s.joinUpdateTimes ("a" ++ toString j), now - x > 1000) →
       (set_analog s j v now).2 = none ∧
       (set_analog s j v now).1.queue = s.queue ++ [.ana j.toNat v]) ∧
    (∀ fuel bytes ts s, (run_loop fuel bytes ts s).joinUpdateTimes
       = s.joinUpdateTimes) := by
  refine ⟨check_rate_limit_reject, check_rate_limit_admit_aged, ?_, ?_, ?_, ?_,
    run_loop_joinUpdateTimes⟩
  · intro s j v now hav hw h1 h2 hlen hwin
    have hv : validate_join j = .ok () := by
      unfold validate_join
      rw [if_pos ⟨h1, h2⟩]
    simp [set_analog, set_analog_body, wrap_raise, hv, hav, hw,
      check_rate_limit_reject _ _ hlen hwin]
  · intro s j v now hav hw h1 h2 hlen hwin
    have hv : validate_join j = .ok () := by
      unfold validate_join
      rw [if_pos ⟨h1, h2⟩]
    simp [set_digital, set_digital_body, wrap_raise, hv, hav, hw,
      check_rate_limit_reject _ _ hlen hwin]
  · intro s j str now hav hw hstr hlen hwin
    have hs252 : ¬(str.length > 252) := by omega
    simp [set_serial, set_serial_body, wrap_raise, hav, hw, hs252,
      check_rate_limit_reject _ _ hlen hwin]
  · intro s j v now hav hw h1 h2 hwin
    have hv : validate_join j = .ok () := by
      unfold validate_join
      rw [if_pos ⟨h1, h2⟩]
    simp [set_analog, set_analog_body, wrap_raise, hv, hav, hw,
      check_rate_limit_admit_aged _ _ hwin]

/-- C7 witness: the rate-limit theorem applied to the exhausted state:
the 1001st set of analog join 5 inside the window is rejected without
recording, and a set after the window elapses is admitted. -/
theorem c7_rate_limit_witness :
    check_rate_limit (List.replicate 1000 5000) 5500
      = (false, List.replicate 1000 5000) ∧
    check_rate_limit (List.replicate 1000 5000) 7000 = (true, [7000]) ∧
    (set_analog rate_limited_state 5 1 5500).2 = some (.wrap .homeAssistantError) ∧
    (set_analog rate_limited_state 5 1 5500).1.joinUpdateTimes ("a" ++ toString (5 : Int))
      = rate_limited_state.joinUpdateTimes ("a" ++ toString (5 : Int)) ∧
    (set_analog rate_limited_state 5 1 7000).2 = none := by
  have hin : ∀ x ∈ List.replicate 1000 5000, (5500 : Nat) - x ≤ 1000 := by
    intro x hx
    have hx5 : x = 5000 := List.eq_of_mem_replicate hx
    omega
  have haged : ∀ x ∈ List.replicate 1000 5000, (7000 : Nat) - x > 1000 := by
    intro x hx
    have hx5 : x = 5000 := List.eq_of_mem_replicate hx
    omega
  have hid : rate_limited_state.joinUpdateTimes ("a" ++ toString (5 : Int))
      = List.replicate 1000 5000 := by
    have hs : ("a" ++ toString (5 : Int)) = "a5" := by decide
    rw [hs]
    rfl
  have hlen : 1000 ≤ (rate_limited_state.joinUpdateTimes ("a" ++ toString (5 : Int))).length := by
    rw [hid]
    simp
  have h1 := c7_rate_limit.1 (List.replicate 1000 5000) 5500 (by simp) hin
  have h2 := c7_rate_limit.2.1 (List.replicate 1000 5000) 7000 haged
  have h3 := c7_rate_limit.2.2.1 rate_limited_state 5 1 5500 (by decide) (by decide)
    (by decide) (by decide) hlen (by rw [hid]; exact hin)
  have h4 := c7_rate_limit.2.2.2.2.2.1 rate_limited_state 5 1 7000 (by decide) (by decide)
    (by decide) (by decide) (by rw [hid]; exact haged)
  exact ⟨h1, h2, h3.1, h3.2.1, h4.1⟩

/-- C8 counterexample: set_serial applies its length check to len(str),
the number of code points, not to the encoded payload.  This string
encodes to 254 bytes, beyond the 252-byte payload cap, yet set_serial
accepts it and enqueues the send closure: no error is raised. -/
theorem c8_counterexample :
    encoded_byte_len long_two_byte_string = 254 ∧
    252 < encoded_byte_len long_two_byte_string ∧
    long_two_byte_string.length = 127 ∧
    (set_serial avail_state 1 long_two_byte_string 5).2 = none ∧
    (set_serial avail_state 1 long_two_byte_string 5).1.queue
      = [Cmd.ser 1 long_two_byte_string] := by
  refine ⟨?_, ?_, ?_, ?_, ?_⟩ <;> decide

/-- C8 (amended): set_serial rejects strings of more than 252
characters (code points) with a ValueError (surfaced wrapped in
ConnectionError), raised before anything happens: nothing is enqueued,
nothing is written, no rate-limit timestamp is recorded, and on an
otherwise healthy connection the state is left completely unchanged.
The check counts characters, not encoded bytes, so strings whose UTF-8
encoding exceeds 252 bytes but whose character count is at most 252 are
not rejected. -/
theorem c8_serial_length_check (s : ServerState) (j : Int) (str : String) (now : Nat)
    (hlen : 252 < str.length) :
    (set_serial s j str now).2 ≠ none ∧
    (set_serial s j str now).1.queue = s.queue ∧
    (set_serial s j str now).1.out = s.out ∧
    (set_serial s j str now).1.joinUpdateTimes = s.joinUpdateTimes ∧
    (available s = true → s.writerPresent = true →
      (set_serial s j str now).2 = some (.wrap .valueError) ∧
      (set_serial s j str now).1 = s) := by
  unfold set_serial set_serial_body wrap_raise
  by_cases hav : available s = false
  · simp [hav]
  · by_cases hw : s.writerPresent = false
    · simp [hav, hw]
    · have hgt : str.length > 252 := hlen
      simp [hav, hw, hgt]

/-- C8 witness: the amended theorem applied to a 253-character string on
the connected state. -/
theorem c8_serial_length_check_witness :
    (set_serial avail_state 1 (String.mk (List.replicate 253 'a')) 5).2
      = some (.wrap .valueError) ∧
    (set_serial avail_state 1 (String.mk (List.replicate 253 'a')) 5).1.queue
      = avail_state.queue := by
  have h := c8_serial_length_check avail_state 1 (String.mk (List.replicate 253 'a')) 5
    (by decide)
  exact ⟨(h.2.2.2.2 (by decide) (by decide)).1, h.2.1⟩

/-- C9: every failure inside set_digital, set_analog or set_serial is
surfaced to the caller as a ConnectionError wrapping the original
exception; the three setters never let any other exception type escape.
In particular a join-validation failure surfaces as ConnectionError
wrapping the ValueError (rate-limit rejections and the serial length
check go through the same wrapper). -/
theorem c9_setters_wrap_connection_error :
    (∀ s j v now, (set_digital s j v now).2 = none ∨
       ∃ e, (set_digital s j v now).2 = some (.wrap e)) ∧
    (∀ s j v now, (set_analog s j v now).2 = none ∨
       ∃ e, (set_analog s j v now).2 = some (.wrap e)) ∧
    (∀ s j str now, (set_serial s j str now).2 = none ∨
       ∃ e, (set_serial s j str now).2 = some (.wrap e)) ∧
    (∀ s (j : Int) v a now, ¬(0 < j ∧ j ≤ 65535) →
       (set_digital s j v now).2 = some (.wrap .valueError) ∧
       (set_analog s j a now).2 = some (.wrap .valueError)) := by
  refine ⟨?_, ?_, ?_, ?_⟩
  · intro s j v now
    rcases h : set_digital_body s j v now with ⟨s1, oe⟩
    cases oe with
    | none => left; simp [set_digital, wrap_raise, h]
    | some e => right; exact ⟨e, by simp [set_digital, wrap_raise, h]⟩
  · intro s j v now
    rcases h : set_analog_body s j v now with ⟨s1, oe⟩
    cases oe with
    | none => left; simp [set_analog, wrap_raise, h]
    | some e => right; exact ⟨e, by simp [set_analog, wrap_raise, h]⟩
  · intro s j str now
    rcases h : set_serial_body s j str now with ⟨s1, oe⟩
    cases oe with
    | none => left; simp [set_serial, wrap_raise, h]
    | some e => right; exact ⟨e, by simp [set_serial, wrap_raise, h]⟩
  · intro s j v a now hj
    have hv : validate_join j = .error .valueError := by
      unfold validate_join
      rw [if_neg hj]
    constructor
    · simp [set_digital, set_digital_body, wrap_raise, hv]
    · simp [set_analog, set_analog_body, wrap_raise, hv]

/-- C9 witness: the wrapper theorem at concrete inputs, including the
out-of-range join 0. -/
theorem c9_setters_wrap_witness :
    ((set_digital avail_state 1 true 5).2 = none ∨
      ∃ e, (set_digital avail_state 1 true 5).2 = some (.wrap e)) ∧
    ((set_serial avail_state 1 "hi" 5).2 = none ∨
      ∃ e, (set_serial avail_state 1 "hi" 5).2 = some (.wrap e)) ∧
    (set_digital avail_state 0 true 5).2 = some (.wrap .valueError) ∧
    (set_analog avail_state 0 9 5).2 = some (.wrap .valueError) := by
  refine ⟨c9_setters_wrap_connection_error.1 avail_state 1 true 5,
    c9_setters_wrap_connection_error.2.2.1 avail_state 1 "hi" 5, ?_, ?_⟩
  · exact (c9_setters_wrap_connection_error.2.2.2 avail_state 0 true 9 5 (by decide)).1
  · exact (c9_setters_wrap_connection_error.2.2.2 avail_state 0 true 9 5 (by decide)).2

/-- C10: get_digital, get_analog and get_serial are total and never
raise for any integer join argument: every internal exception,
including the validation failure on an out-of-range join, is caught,
and the function returns its fallback (False, None, "" respectively)
in that case. -/
theorem c10_getters_never_raise :
    (∀ s j, ∃ b, get_digital s j = .ok b) ∧
    (∀ s j, ∃ a, get_analog s j = .ok a) ∧
    (∀ s j, ∃ str, get_serial s j = .ok str) ∧
    (∀ s (j : Int), ¬(0 < j ∧ j ≤ 65535) →
       get_digital s j = .ok false ∧ get_analog s j = .ok none) := by
  refine ⟨?_, ?_, ?_, ?_⟩
  · intro s j
    cases h : get_digital_body s j with
    | error e => exact ⟨false, by simp [get_digital, h]⟩
    | ok v => exact ⟨v, by simp [get_digital, h]⟩
  · intro s j
    cases h : get_analog_body s j with
    | error e => exact ⟨none, by simp [get_analog, h]⟩
    | ok v => exact ⟨v, by simp [get_analog, h]⟩
  · intro s j
    cases h : get_serial_body s j with
    | error e => exact ⟨"", by simp [get_serial, h]⟩
    | ok v => exact ⟨v, by simp [get_serial, h]⟩
  · intro s j hj
    have hv : validate_join j = .error .valueError := by
      unfold validate_join
      rw [if_neg hj]
    constructor
    · simp [get_digital, get_digital_body, hv, Bind.bind, Except.bind]
    · simp [get_analog, get_analog_body, hv, Bind.bind, Except.bind]

/-- C10 witness: the totality theorem applied at the negative join -3
(out of range for validation) on a fresh instance. -/
theorem c10_getters_never_raise_witness :
    (∃ b, get_digital init_state (-3) = .ok b) ∧
    (∃ str, get_serial init_state (-3) = .ok str) ∧
    get_digital init_state (-3) = .ok false ∧
    get_analog init_state (-3) = .ok none := by
  refine ⟨c10_getters_never_raise.1 init_state (-3),
    c10_getters_never_raise.2.2.1 init_state (-3), ?_, ?_⟩
  · exact (c10_getters_never_raise.2.2.2 init_state (-3) (by decide)).1
  · exact (c10_getters_never_raise.2.2.2 init_state (-3) (by decide)).2

/-- C1 witness: the digital round-trip at join 10 value True, the
fixture scenario (wire bytes 0x80 0x09). -/
theorem c1_digital_roundtrip_witness :
    ∃ b0 b1, encode_digital 10 true = .ok (b0, b1) ∧
      decode_digital_join b0 b1 = 10 ∧ decode_digital_value b0 = true :=
  c1_digital_roundtrip 10 true (by decide) (by decide)

/-- C2 witness: the analog round-trip at join 1 value 1000, the spec
scenario: the decode of the 4-byte encoding reproduces 1000 exactly. -/
theorem c2_analog_roundtrip_witness :
    ∃ b0 b1 b2 b3, encode_analog 1 1000 = .ok (b0, b1, b2, b3) ∧
      decode_analog_join b0 b1 = 1 ∧ decode_analog_value b0 b2 b3 = 1000 :=
  c2_analog_roundtrip 1 1000 (by decide) (by decide) (by decide)
